import Mathlib

/-!
Verification of the DeePC problem-formulation pipeline (`DeePCtools.py`).

Matrices are embedded row-major as `List (List ℚ)` and vectors as `List ℚ`,
mirroring the numpy arrays of the source.  Every definition below is a direct
translation of the corresponding Python code in `src/deepctools/DeePCtools.py`;
fallible Python operations (attribute errors, `ValueError` raises) are modelled
with `Except String`.
-/

namespace DeePC

/-- Dot product of two rational vectors (numpy `a @ b` for 1-D arrays). -/
def dot (a b : List ℚ) : ℚ := (List.zipWith (· * ·) a b).sum

/-- Matrix–vector product: `M @ v` for a row-major matrix. -/
def mulVec (M : List (List ℚ)) (v : List ℚ) : List ℚ := M.map (fun r => dot r v)

/-- Transpose of a row-major matrix (`M.T`); the column count is read off the
first row, as for a rectangular numpy array. -/
def tr (M : List (List ℚ)) : List (List ℚ) :=
  (List.range (M.headD []).length).map (fun j => M.map (fun r => r.getD j 0))

/-- Matrix–matrix product `A @ B`. -/
def matMul (A B : List (List ℚ)) : List (List ℚ) :=
  A.map (fun r => (tr B).map (fun c => dot r c))

/-- Entrywise matrix sum `A + B`. -/
def matAdd (A B : List (List ℚ)) : List (List ℚ) :=
  List.zipWith (fun r s => List.zipWith (· + ·) r s) A B

/-- Entrywise vector difference `a - b`. -/
def vsub (a b : List ℚ) : List ℚ := List.zipWith (· - ·) a b

/-- Entrywise vector negation `-a`. -/
def vneg (a : List ℚ) : List ℚ := a.map (fun x => -x)

/-- Python slice `x[-n:]` (the last `n` entries, for `n ≥ 1`). -/
def lastN (n : ℕ) (xs : List ℚ) : List ℚ := xs.drop (xs.length - n)

/-- Python slice `x[:-n]` (all but the last `n` entries, for `n ≥ 1`). -/
def dropLastN (n : ℕ) (xs : List ℚ) : List ℚ := xs.take (xs.length - n)

/-- numpy `np.tile(xs, n)` for a 1-D array: `xs` repeated `n` times. -/
def tileL (xs : List ℚ) (n : ℕ) : List ℚ := (List.replicate n xs).flatten

/-- The four bound lists read from the `ineqconbd` dict
(`lbu`, `ubu`, `lby`, `uby`). -/
structure IneqBounds where
  lbu : List ℚ := []
  ubu : List ℚ := []
  lby : List ℚ := []
  uby : List ℚ := []

/-- Loop body of `_init_ineq_cons` over the `ineqconidx.items()` entries: for
each `(varname, idx)` pick the base matrix / dimension / bounds, build the row
index list `[v + i*dim for i in range(Np) for v in idx]`, select those rows and
tile the bounds `Np` times; an unrecognized key raises `ValueError`. -/
def ineq_blocks (Uf Yf : List (List ℚ)) (udim ydim Np : ℕ) (bd : IneqBounds) :
    List (String × List ℕ) →
    Except String (List (List (List ℚ)) × List (List ℚ) × List (List ℚ))
  | [] => .ok ([], [], [])
  | (varname, idx) :: rest => do
      let (H_all, dim, lb, ub) ←
        if varname = "u" then Except.ok (Uf, udim, bd.lbu, bd.ubu)
        else if varname = "y" then Except.ok (Yf, ydim, bd.lby, bd.uby)
        else Except.error "ValueError: variable not exist, should be u or/and y"
      let idxH := (List.range Np).flatMap (fun i => idx.map (fun v => v + i * dim))
      let (Hs, lbs, ubs) ← ineq_blocks Uf Yf udim ydim Np bd rest
      .ok ((idxH.map (fun j => H_all.getD j [])) :: Hs, tileL lb Np :: lbs, tileL ub Np :: ubs)

/-- Translation of `deepctools._init_ineq_cons`.  When `ineqconidx is None` the
code sets `lbc = []` (a plain Python list) and then evaluates `lbc.tolist()`,
which raises `AttributeError` — Python lists have no `tolist` method.  When the
dict is non-empty the per-entry blocks are concatenated (`np.concatenate`
raises on an empty list of arrays). -/
def init_ineq_cons (Uf Yf : List (List ℚ)) (udim ydim Np : ℕ)
    (ineqconidx : Option (List (String × List ℕ))) (bd : IneqBounds) :
    Except String (List (List ℚ) × List ℚ × List ℚ) :=
  match ineqconidx with
  | none => .error "AttributeError: list object has no attribute tolist"
  | some entries => do
      let (Hs, lbs, ubs) ← ineq_blocks Uf Yf udim ydim Np bd entries
      if Hs.isEmpty then
        .error "ValueError: need at least one array to concatenate"
      else
        .ok (Hs.flatten, lbs.flatten, ubs.flatten)

/-- Per-entry description of the rows and bounds `_init_ineq_cons` produces for
one recognized `(varname, idx)` entry: row `v + i*dim` of the base matrix for
each step `i < Np` and component `v ∈ idx`, bounds tiled `Np` times. -/
def entryBlock (Uf Yf : List (List ℚ)) (udim ydim Np : ℕ) (bd : IneqBounds)
    (e : String × List ℕ) : List (List ℚ) × List ℚ × List ℚ :=
  if e.1 = "u" then
    (((List.range Np).flatMap (fun i => e.2.map (fun v => Uf.getD (v + i * udim) []))),
      tileL bd.lbu Np, tileL bd.ubu Np)
  else
    (((List.range Np).flatMap (fun i => e.2.map (fun v => Yf.getD (v + i * ydim) []))),
      tileL bd.lby Np, tileL bd.uby Np)

/-- Robust-mode objective for `uloss='u'` (lines 371–375 of the source):
`H = Yf.T @ Q @ Yf + Uf.T @ R @ Uf + Yp.T @ lambda_y @ Yp + lambda_g`,
`f = - Yp.T @ lambda_y @ yini - Yf.T @ Q @ yref`, objective
`0.5 * g.T @ H @ g + f.T @ g`. -/
def RDeePC_obj_u (Q R lamy lamg Uf Yf Yp : List (List ℚ)) (yref yini g : List ℚ) : ℚ :=
  let H := matAdd (matAdd (matAdd (matMul (matMul (tr Yf) Q) Yf)
    (matMul (matMul (tr Uf) R) Uf)) (matMul (matMul (tr Yp) lamy) Yp)) lamg
  let f := vsub (vneg (mulVec (matMul (tr Yp) lamy) yini)) (mulVec (matMul (tr Yf) Q) yref)
  (1 / 2) * dot (mulVec (tr H) g) g + dot f g

/-- Standard-mode objective for `uloss='du'` (lines 283–291 of the source):
`u_cur = Uf @ g`, `u_prev = vertcat(uini[-u_dim:], (Uf @ g)[:-u_dim])`,
`du = u_cur - u_prev`, `y_loss = Yf @ g - yref`, objective
`y_loss.T @ Q @ y_loss + du.T @ R @ du`. -/
def DeePC_obj_du (Q R Uf Yf : List (List ℚ)) (yref : List ℚ) (udim : ℕ)
    (uini g : List ℚ) : ℚ :=
  let u_cur := mulVec Uf g
  let u_prev := lastN udim uini ++ dropLastN udim (mulVec Uf g)
  let du := vsub u_cur u_prev
  let y := mulVec Yf g
  let y_loss := vsub y yref
  dot (mulVec (tr Q) y_loss) y_loss + dot (mulVec (tr R) du) du

/-- Standard-mode stacked constraint vector (lines 293–307):
`[Up @ g - uini ; Yp @ g - yini ; Hc @ g]`. -/
def DeePC_C (Up Yp Hc : List (List ℚ)) (g uini yini : List ℚ) : List ℚ :=
  vsub (mulVec Up g) uini ++ vsub (mulVec Yp g) yini ++ mulVec Hc g

/-- Standard-mode lower bounds (lines 295–309): one `0` per row of the symbolic
`uini` (shape `u_dim*Tini`), one per row of `yini` (shape `y_dim*Tini`), then
the stored inequality lower bounds. -/
def DeePC_lbc (udim ydim Tini : ℕ) (lbc_ineq : List ℚ) : List ℚ :=
  List.replicate (udim * Tini) 0 ++ List.replicate (ydim * Tini) 0 ++ lbc_ineq

/-- Standard-mode upper bounds; structurally identical to `DeePC_lbc`. -/
def DeePC_ubc (udim ydim Tini : ℕ) (ubc_ineq : List ℚ) : List ℚ :=
  List.replicate (udim * Tini) 0 ++ List.replicate (ydim * Tini) 0 ++ ubc_ineq

/-- Robust-mode stacked constraint vector (lines 398–408):
`[Up @ g - uini ; Hc @ g]` — no `Yp` equality rows. -/
def RDeePC_C (Up Hc : List (List ℚ)) (g uini : List ℚ) : List ℚ :=
  vsub (mulVec Up g) uini ++ mulVec Hc g

/-- Robust-mode lower bounds (lines 400–409). -/
def RDeePC_lbc (udim Tini : ℕ) (lbc_ineq : List ℚ) : List ℚ :=
  List.replicate (udim * Tini) 0 ++ lbc_ineq

/-- Robust-mode upper bounds. -/
def RDeePC_ubc (udim Tini : ℕ) (ubc_ineq : List ℚ) : List ℚ :=
  List.replicate (udim * Tini) 0 ++ ubc_ineq

/-- Message of the `ValueError` raised for an unknown `uloss` string. -/
def ulossErrMsg : String := "ValueError: uloss should be one of u, uus, du"

/-- Message of the `ValueError` raised when the NLP lacks degrees of freedom. -/
def dofErrMsg : String := "ValueError: NLP do not have enough degrees of freedom"

/-- Message of the `ValueError` raised when robust mode misses `lambda_g` or
`lambda_y`. -/
def lambdaErrMsg : String :=
  "ValueError: Do not give value of lambda_g or lambda_y, but required for Robust DeePC"

/-- Message of the `ValueError` raised when `uloss='uus'` but `uref` is
undefined. -/
def urefErrMsg : String :=
  "ValueError: Do not give value of us, but required in objective function u-us"

/-- Validation sequence of `init_DeePCsolver` (lines 254–281): unknown `uloss`
raises; then `g_dim <= (u_dim + y_dim) * Tini` raises; then, inside the
`uloss == 'uus'` branch, an undefined `uref` raises. -/
def init_DeePCsolver_pre (uloss : String) (udim ydim Tini gdim : ℕ)
    (uref : Option (List ℚ)) : Except String Unit :=
  if uloss ≠ "u" ∧ uloss ≠ "uus" ∧ uloss ≠ "du" then .error ulossErrMsg
  else if gdim ≤ (udim + ydim) * Tini then .error dofErrMsg
  else if uloss = "uus" ∧ uref = none then .error urefErrMsg
  else .ok ()

/-- Validation sequence of `init_RDeePCsolver` (lines 353–383): unknown `uloss`
raises; missing `lambda_g` or `lambda_y` raises; then
`g_dim <= u_dim * Tini` raises; then, inside the `uloss == 'uus'` branch, an
undefined `uref` raises. -/
def init_RDeePCsolver_pre (uloss : String) (udim Tini gdim : ℕ)
    (lambda_g lambda_y : Option (List (List ℚ))) (uref : Option (List ℚ)) :
    Except String Unit :=
  if uloss ≠ "u" ∧ uloss ≠ "uus" ∧ uloss ≠ "du" then .error ulossErrMsg
  else if lambda_g = none ∨ lambda_y = none then .error lambdaErrMsg
  else if gdim ≤ udim * Tini then .error dofErrMsg
  else if uloss = "uus" ∧ uref = none then .error urefErrMsg
  else .ok ()

/-- The `uref` set at construction (lines 94–96): `None` unless `us.any()` is
truthy, i.e. unless some entry of `us` is nonzero, in which case `us` is tiled
`Np` times into a column vector. -/
def mk_uref (us : List ℚ) (Np : ℕ) : Option (List ℚ) :=
  if us.any (fun x => decide (x ≠ 0)) then some (tileL us Np) else none

/-- Translation of `deepctools.solver_step` (lines 419–438).  The numerical
backend (`self.solver`, an opaque ipopt NLP handle) and numpy's `pinv` are
passed in as function parameters; `elapsed` stands for the measured wall-clock
duration.  `parameters = concat(uini, yini)`;
`g0_guess = pinv(concat(Up, Yp, axis=0)) @ parameters`; the backend is invoked
with `x0 = g0_guess`, `p = parameters`, `lbg = lbc`, `ubg = ubc`; the result is
`(Uf @ g_opt, g_opt, elapsed)`. -/
def solver_step (pinv : List (List ℚ) → List (List ℚ))
    (solver : List ℚ → List ℚ → List ℚ → List ℚ → List ℚ) (elapsed : ℚ)
    (Up Yp Uf : List (List ℚ)) (lbc ubc : List ℚ)
    (uini yini : List ℚ) : List ℚ × List ℚ × ℚ :=
  let parameters := uini ++ yini
  let g0_guess := mulVec (pinv (Up ++ Yp)) parameters
  let g_opt := solver g0_guess parameters lbc ubc
  let u_opt := mulVec Uf g_opt
  (u_opt, g_opt, elapsed)

/-- Modelled from the spec: `util.hankel` (imported by the source but not part
of it).  Per §4.1, `hankel(series, L)` has shape `(dim*L, T-L+1)` and column
`s` is the vertical concatenation of rows `s..s+L-1` of the series; hence row
`j*dim + c` lists entry `c` of rows `s+j` over all window starts `s`. -/
def hankel (series : List (List ℚ)) (L : ℕ) : List (List ℚ) :=
  let T := series.length
  let dim := (series.headD []).length
  (List.range L).flatMap (fun j =>
    (List.range dim).map (fun c =>
      (List.range (T - L + 1)).map (fun s => (series.getD (s + j) []).getD c 0)))

/-- Translation of `deepctools._checkshape` for a matrix argument: `None` is
skipped, otherwise the numpy shape is compared with the expected one and a
`ValueError` is raised on mismatch. -/
def checkshapeM (x : Option (List (List ℚ))) (s : ℕ × ℕ) : Except String Unit :=
  match x with
  | none => .ok ()
  | some m =>
      if (m.length, (m.headD []).length) = s then .ok ()
      else .error "ValueError: Inconsistent detected"

/-- Translation of `deepctools._checkshape` for a column-vector argument
(shape `(n, 1)`). -/
def checkshapeV (x : Option (List ℚ)) (s : ℕ × ℕ) : Except String Unit :=
  match x with
  | none => .ok ()
  | some v =>
      if (v.length, 1) = s then .ok ()
      else .error "ValueError: Inconsistent detected"

/-- Translation of `deepctools._checkvar` (lines 118–147): the ten shape checks
in source order.  The persistent-excitation rank checks only emit warnings and
are not modelled. -/
def checkvar (udim ydim Tini Np gdim : ℕ) (Up Yp Uf Yf : List (List ℚ))
    (uref : Option (List ℚ)) (yref : List ℚ) (Q R : List (List ℚ))
    (lambda_g lambda_y : Option (List (List ℚ))) : Except String Unit := do
  let _ ← checkshapeM (some Up) (udim * Tini, gdim)
  let _ ← checkshapeM (some Yp) (ydim * Tini, gdim)
  let _ ← checkshapeM (some Uf) (udim * Np, gdim)
  let _ ← checkshapeM (some Yf) (ydim * Np, gdim)
  let _ ← checkshapeV uref (udim * Np, 1)
  let _ ← checkshapeV (some yref) (ydim * Np, 1)
  let _ ← checkshapeM (some Q) (ydim * Np, ydim * Np)
  let _ ← checkshapeM (some R) (udim * Np, udim * Np)
  let _ ← checkshapeM lambda_g (gdim, gdim)
  let _ ← checkshapeM lambda_y (ydim * Tini, ydim * Tini)
  pure ()

/-- State produced by a successful run of the constructor. -/
structure InitState where
  gdim : ℕ
  uref : Option (List ℚ)
  yref : List ℚ
  Up : List (List ℚ)
  Uf : List (List ℚ)
  Yp : List (List ℚ)
  Yf : List (List ℚ)
  Hc : List (List ℚ)
  lbc_ineq : List ℚ
  ubc_ineq : List ℚ

/-- Translation of `deepctools.__init__` (lines 58–116) in source order:
compute `g_dim`, tile `yref`, evaluate `us.any()` — an unguarded attribute
access that raises `AttributeError` when `us is None` — then build the Hankel
matrices, slice them, run the shape validation `_checkvar`, and build the
inequality constraints `_init_ineq_cons`. -/
def deepctools_init (udim ydim T Tini Np : ℕ) (ys : List ℚ)
    (us : Option (List ℚ)) (ud yd : List (List ℚ)) (Q R : List (List ℚ))
    (lambda_g lambda_y : Option (List (List ℚ)))
    (ineqconidx : Option (List (String × List ℕ))) (bd : IneqBounds) :
    Except String InitState := do
  let gdim := T - Tini - Np + 1
  let yref := tileL ys Np
  let uref ← match us with
    | none => Except.error "AttributeError: NoneType object has no attribute any"
    | some usv =>
        pure (if usv.any (fun x => decide (x ≠ 0)) then some (tileL usv Np) else none)
  let Hud := hankel ud (Tini + Np)
  let Hyd := hankel yd (Tini + Np)
  let Up := Hud.take (udim * Tini)
  let Uf := Hud.drop (udim * Tini)
  let Yp := Hyd.take (ydim * Tini)
  let Yf := Hyd.drop (ydim * Tini)
  let _ ← checkvar udim ydim Tini Np gdim Up Yp Uf Yf uref yref Q R lambda_g lambda_y
  let (Hc, lbci, ubci) ← init_ineq_cons Uf Yf udim ydim Np ineqconidx bd
  pure ⟨gdim, uref, yref, Up, Uf, Yp, Yf, Hc, lbci, ubci⟩

/-- C1: contrary to the claim, constraint initialization with
`ineqconidx = None` does not succeed with empty `Hc`/`lbc`/`ubc`: the
`None` branch of `_init_ineq_cons` binds `lbc`/`ubc` to plain Python lists and
then calls `lbc.tolist()`, raising `AttributeError`.  This theorem evaluates
the translated code at the failing input. -/
theorem C1_ineqconidx_none_raises :
    init_ineq_cons [] [] 1 1 1 none {} =
      .error "AttributeError: list object has no attribute tolist" := rfl

/-- C2: for robust mode with `uloss='u'`, the assembled objective is
`½·gᵀHg + fᵀg` with `H = Yfᵀ·Q·Yf + Ufᵀ·R·Uf + Ypᵀ·lambda_y·Yp + lambda_g` and
`f = −Ypᵀ·lambda_y·yini − Yfᵀ·Q·yref`, for every decision vector `g` and
parameter `yini`. -/
theorem C2_robust_u_objective (Q R lamy lamg Uf Yf Yp : List (List ℚ))
    (yref yini g : List ℚ) :
    RDeePC_obj_u Q R lamy lamg Uf Yf Yp yref yini g =
      (1 / 2) * dot (mulVec (tr (matAdd (matAdd (matAdd (matMul (matMul (tr Yf) Q) Yf)
            (matMul (matMul (tr Uf) R) Uf)) (matMul (matMul (tr Yp) lamy) Yp)) lamg)) g) g
        + dot (vsub (vneg (mulVec (matMul (tr Yp) lamy) yini))
            (mulVec (matMul (tr Yf) Q) yref)) g := rfl

/-- C4: for standard mode with `uloss='du'`, the objective equals
`y_lossᵀ·Q·y_loss + duᵀ·R·du` where `u_cur = Uf·g`, `u_prev` is the last
`u_dim` entries of `uini` followed by all but the last `u_dim` entries of
`u_cur`, `du = u_cur − u_prev`, and `y_loss = Yf·g − yref`, for every `g`,
`uini`. -/
theorem C4_standard_du_objective (Q R Uf Yf : List (List ℚ)) (yref : List ℚ)
    (udim : ℕ) (uini g : List ℚ) :
    DeePC_obj_du Q R Uf Yf yref udim uini g =
      dot (mulVec (tr Q) (vsub (mulVec Yf g) yref)) (vsub (mulVec Yf g) yref)
        + dot (mulVec (tr R) (vsub (mulVec Uf g)
            (lastN udim uini ++ dropLastN udim (mulVec Uf g))))
          (vsub (mulVec Uf g) (lastN udim uini ++ dropLastN udim (mulVec Uf g))) := rfl

/-- C8: each per-step solve computes the initial guess
`g0 = pinv([Up; Yp]) · concat(uini, yini)`, invokes the backend with
parameters `concat(uini, yini)` and the stored bound arrays, and returns the
triple `(Uf · g_opt, g_opt, elapsed)` where `g_opt` is the extracted decision
vector. -/
theorem C8_solver_step (pinv : List (List ℚ) → List (List ℚ))
    (solver : List ℚ → List ℚ → List ℚ → List ℚ → List ℚ) (elapsed : ℚ)
    (Up Yp Uf : List (List ℚ)) (lbc ubc uini yini : List ℚ) :
    solver_step pinv solver elapsed Up Yp Uf lbc ubc uini yini =
      (mulVec Uf (solver (mulVec (pinv (Up ++ Yp)) (uini ++ yini)) (uini ++ yini) lbc ubc),
       solver (mulVec (pinv (Up ++ Yp)) (uini ++ yini)) (uini ++ yini) lbc ubc,
       elapsed) := rfl

/-- C9: constructing with `us = None` (the documented default) always fails
with the unguarded `AttributeError` at the `us.any()` call, before any shape
validation or constraint initialization runs — for every choice of all other
constructor arguments. -/
theorem C9_us_none_always_raises (udim ydim T Tini Np : ℕ) (ys : List ℚ)
    (ud yd Q R : List (List ℚ)) (lambda_g lambda_y : Option (List (List ℚ)))
    (ineqconidx : Option (List (String × List ℕ))) (bd : IneqBounds) :
    deepctools_init udim ydim T Tini Np ys none ud yd Q R lambda_g lambda_y
        ineqconidx bd =
      .error "AttributeError: NoneType object has no attribute any" := rfl

/-- C6: with a valid `uloss` (and, for robust mode, both lambda weights
defined and `uref` available when `uloss='uus'`), standard-mode formulation
fails with the degrees-of-freedom error exactly when
`g_dim ≤ (u_dim + y_dim)·Tini`, robust-mode formulation fails on that ground
exactly when `g_dim ≤ u_dim·Tini`, and dimensions in between fail in standard
mode while passing all robust-mode checks. -/
theorem C6_dof_thresholds (uloss : String) (udim ydim Tini gdim : ℕ)
    (uref : Option (List ℚ)) (lambda_g lambda_y : Option (List (List ℚ)))
    (huloss : uloss = "u" ∨ uloss = "uus" ∨ uloss = "du")
    (hur : uloss = "uus" → uref ≠ none)
    (hlg : lambda_g ≠ none) (hly : lambda_y ≠ none) :
    (init_DeePCsolver_pre uloss udim ydim Tini gdim uref = .error dofErrMsg
        ↔ gdim ≤ (udim + ydim) * Tini)
    ∧ (init_RDeePCsolver_pre uloss udim Tini gdim lambda_g lambda_y uref = .error dofErrMsg
        ↔ gdim ≤ udim * Tini)
    ∧ (udim * Tini < gdim ∧ gdim ≤ (udim + ydim) * Tini →
        init_DeePCsolver_pre uloss udim ydim Tini gdim uref = .error dofErrMsg
        ∧ init_RDeePCsolver_pre uloss udim Tini gdim lambda_g lambda_y uref = .ok ()) := by
  have hvalid : ¬(uloss ≠ "u" ∧ uloss ≠ "uus" ∧ uloss ≠ "du") := by
    rcases huloss with h | h | h <;> simp [h]
  have hlam : ¬(lambda_g = none ∨ lambda_y = none) := not_or.mpr ⟨hlg, hly⟩
  have hmsg : dofErrMsg ≠ urefErrMsg := by decide
  refine ⟨?_, ?_, ?_⟩
  · by_cases hd : gdim ≤ (udim + ydim) * Tini
    · simp [init_DeePCsolver_pre, hvalid, hd]
    · by_cases hu : uloss = "uus" ∧ uref = none
      · exact absurd hu.2 (hur hu.1)
      · simp [init_DeePCsolver_pre, hvalid, hd, hu]
  · by_cases hd : gdim ≤ udim * Tini
    · simp [init_RDeePCsolver_pre, hvalid, hlam, hd]
    · by_cases hu : uloss = "uus" ∧ uref = none
      · exact absurd hu.2 (hur hu.1)
      · simp [init_RDeePCsolver_pre, hvalid, hlam, hd, hu]
  · rintro ⟨h1, h2⟩
    have hd : ¬ gdim ≤ udim * Tini := not_le.mpr h1
    by_cases hu : uloss = "uus" ∧ uref = none
    · exact absurd hu.2 (hur hu.1)
    · exact ⟨by simp [init_DeePCsolver_pre, hvalid, h2],
        by simp [init_RDeePCsolver_pre, hvalid, hlam, hd, hu]⟩

/-- C6 witness: at `uloss = "u"`, `u_dim = y_dim = Tini = 1`, `g_dim = 2`,
the hypotheses hold and the theorem applies. -/
theorem C6_dof_thresholds_witness :
    (("u" : String) = "u" ∨ ("u" : String) = "uus" ∨ ("u" : String) = "du")
    ∧ (("u" : String) = "uus" → (none : Option (List ℚ)) ≠ none)
    ∧ ((some [] : Option (List (List ℚ))) ≠ none)
    ∧ ((some [] : Option (List (List ℚ))) ≠ none)
    ∧ ((init_DeePCsolver_pre "u" 1 1 1 2 none = .error dofErrMsg ↔ 2 ≤ (1 + 1) * 1)
      ∧ (init_RDeePCsolver_pre "u" 1 1 2 (some []) (some []) none = .error dofErrMsg
          ↔ 2 ≤ 1 * 1)
      ∧ (1 * 1 < 2 ∧ 2 ≤ (1 + 1) * 1 →
          init_DeePCsolver_pre "u" 1 1 1 2 none = .error dofErrMsg
          ∧ init_RDeePCsolver_pre "u" 1 1 2 (some []) (some []) none = .ok ())) :=
  ⟨by decide, by decide, by decide, by decide,
    C6_dof_thresholds "u" 1 1 1 2 none (some []) (some [])
      (by decide) (by decide) (by decide) (by decide)⟩

/-- C7: with the degrees-of-freedom checks satisfied and the robust lambda
weights defined, formulating with `uloss='uus'` fails with the documented
configuration error whenever `uref` is undefined; an all-zero `us` yields an
undefined `uref` at construction; and once `us` has a nonzero entry the
formulation passes all pre-checks — in both standard and robust modes. -/
theorem C7_uus_requires_uref (udim ydim Tini gdim Np : ℕ) (us : List ℚ)
    (lambda_g lambda_y : Option (List (List ℚ)))
    (hstd : (udim + ydim) * Tini < gdim) (hrob : udim * Tini < gdim)
    (hlg : lambda_g ≠ none) (hly : lambda_y ≠ none) :
    (init_DeePCsolver_pre "uus" udim ydim Tini gdim none = .error urefErrMsg
      ∧ init_RDeePCsolver_pre "uus" udim Tini gdim lambda_g lambda_y none = .error urefErrMsg)
    ∧ ((∀ x ∈ us, x = 0) → mk_uref us Np = none)
    ∧ ((∃ x ∈ us, x ≠ 0) →
        init_DeePCsolver_pre "uus" udim ydim Tini gdim (mk_uref us Np) = .ok ()
        ∧ init_RDeePCsolver_pre "uus" udim Tini gdim lambda_g lambda_y (mk_uref us Np) = .ok ()) := by
  have hvalid : ¬(("uus" : String) ≠ "u" ∧ ("uus" : String) ≠ "uus" ∧ ("uus" : String) ≠ "du") := by
    simp
  have hlam : ¬(lambda_g = none ∨ lambda_y = none) := not_or.mpr ⟨hlg, hly⟩
  have hd1 : ¬ gdim ≤ (udim + ydim) * Tini := not_le.mpr hstd
  have hd2 : ¬ gdim ≤ udim * Tini := not_le.mpr hrob
  refine ⟨⟨?_, ?_⟩, ?_, ?_⟩
  · simp [init_DeePCsolver_pre, hvalid, hd1]
  · simp [init_RDeePCsolver_pre, hvalid, hlam, hd2]
  · intro h
    have hany : us.any (fun x => decide (x ≠ 0)) = false := by
      simp only [List.any_eq_false, decide_eq_true_eq, ne_eq, not_not]
      exact h
    simp only [mk_uref, hany, Bool.false_eq_true, if_false]
  · intro h
    have hany : us.any (fun x => decide (x ≠ 0)) = true := by
      simp only [List.any_eq_true, decide_eq_true_eq]
      exact h
    have hsome : mk_uref us Np = some (tileL us Np) := by
      simp only [mk_uref, hany, if_true]
    constructor
    · simp [init_DeePCsolver_pre, hvalid, hd1, hsome]
    · simp [init_RDeePCsolver_pre, hvalid, hlam, hd2, hsome]

/-- C7 witness: at `u_dim = y_dim = Tini = Np = 1`, `g_dim = 3`, `us = [0]`,
the hypotheses hold and the theorem applies. -/
theorem C7_uus_requires_uref_witness :
    ((1 + 1) * 1 < 3) ∧ (1 * 1 < 3)
    ∧ ((some [] : Option (List (List ℚ))) ≠ none)
    ∧ ((some [] : Option (List (List ℚ))) ≠ none)
    ∧ ((init_DeePCsolver_pre "uus" 1 1 1 3 none = .error urefErrMsg
        ∧ init_RDeePCsolver_pre "uus" 1 1 3 (some []) (some []) none = .error urefErrMsg)
      ∧ ((∀ x ∈ ([0] : List ℚ), x = 0) → mk_uref [0] 1 = none)
      ∧ ((∃ x ∈ ([0] : List ℚ), x ≠ 0) →
          init_DeePCsolver_pre "uus" 1 1 1 3 (mk_uref [0] 1) = .ok ()
          ∧ init_RDeePCsolver_pre "uus" 1 1 3 (some []) (some []) (mk_uref [0] 1) = .ok ())) :=
  ⟨by decide, by decide, by decide, by decide,
    C7_uus_requires_uref 1 1 1 3 1 [0] (some []) (some [])
      (by decide) (by decide) (by decide) (by decide)⟩

/-- Helper: the standard-mode lower/upper bound stacks are a block of zeros of
length `u_dim·Tini + y_dim·Tini` followed by the inequality bounds. -/
lemma DeePC_lbc_eq_replicate (udim ydim Tini : ℕ) (l : List ℚ) :
    DeePC_lbc udim ydim Tini l
      = List.replicate (udim * Tini + ydim * Tini) 0 ++ l := by
  rw [DeePC_lbc, List.replicate_add, List.append_assoc]

/-- Helper: same decomposition for the upper bounds. -/
lemma DeePC_ubc_eq_replicate (udim ydim Tini : ℕ) (l : List ℚ) :
    DeePC_ubc udim ydim Tini l
      = List.replicate (udim * Tini + ydim * Tini) 0 ++ l := by
  rw [DeePC_ubc, List.replicate_add, List.append_assoc]

/-- C3: the equality block of the constraint stack is `Up·g − uini`
(`u_dim·Tini` rows) followed by `Yp·g − yini` (`y_dim·Tini` rows) in standard
mode, and only the `Up·g − uini` rows in robust mode; each equality row is
bounded below and above by exactly `0`, and the inequality block `Hc·g` with
bounds `lbc_ineq`/`ubc_ineq` follows the equality rows in both modes. -/
theorem C3_equality_block (Up Yp Hc : List (List ℚ)) (g uini yini lbci ubci : List ℚ)
    (udim ydim Tini : ℕ)
    (hUp : Up.length = udim * Tini) (huini : uini.length = udim * Tini)
    (hYp : Yp.length = ydim * Tini) (hyini : yini.length = ydim * Tini) :
    (DeePC_C Up Yp Hc g uini yini
        = vsub (mulVec Up g) uini ++ vsub (mulVec Yp g) yini ++ mulVec Hc g
      ∧ (vsub (mulVec Up g) uini).length = udim * Tini
      ∧ (vsub (mulVec Yp g) yini).length = ydim * Tini
      ∧ (DeePC_lbc udim ydim Tini lbci).take (udim * Tini + ydim * Tini)
          = List.replicate (udim * Tini + ydim * Tini) 0
      ∧ (DeePC_ubc udim ydim Tini ubci).take (udim * Tini + ydim * Tini)
          = List.replicate (udim * Tini + ydim * Tini) 0
      ∧ (DeePC_lbc udim ydim Tini lbci).drop (udim * Tini + ydim * Tini) = lbci
      ∧ (DeePC_ubc udim ydim Tini ubci).drop (udim * Tini + ydim * Tini) = ubci)
    ∧ (RDeePC_C Up Hc g uini = vsub (mulVec Up g) uini ++ mulVec Hc g
      ∧ (RDeePC_lbc udim Tini lbci).take (udim * Tini)
          = List.replicate (udim * Tini) 0
      ∧ (RDeePC_ubc udim Tini ubci).take (udim * Tini)
          = List.replicate (udim * Tini) 0
      ∧ (RDeePC_lbc udim Tini lbci).drop (udim * Tini) = lbci
      ∧ (RDeePC_ubc udim Tini ubci).drop (udim * Tini) = ubci) := by
  refine ⟨⟨rfl, ?_, ?_, ?_, ?_, ?_, ?_⟩, rfl, ?_, ?_, ?_, ?_⟩
  · simp [vsub, mulVec, List.length_zipWith, hUp, huini]
  · simp [vsub, mulVec, List.length_zipWith, hYp, hyini]
  · rw [DeePC_lbc_eq_replicate, List.take_left' (by simp)]
  · rw [DeePC_ubc_eq_replicate, List.take_left' (by simp)]
  · rw [DeePC_lbc_eq_replicate, List.drop_left' (by simp)]
  · rw [DeePC_ubc_eq_replicate, List.drop_left' (by simp)]
  · rw [RDeePC_lbc, List.take_left' (by simp)]
  · rw [RDeePC_ubc, List.take_left' (by simp)]
  · rw [RDeePC_lbc, List.drop_left' (by simp)]
  · rw [RDeePC_ubc, List.drop_left' (by simp)]

/-- C3 witness: at `u_dim = y_dim = Tini = 1` with `Up = [[2]]`, `Yp = [[3]]`,
`Hc = [[5]]`, `g = [1]`, `uini = [1]`, `yini = [1]`, `lbc_ineq = [-1]`,
`ubc_ineq = [7]`, the hypotheses hold and the theorem applies. -/
theorem C3_equality_block_witness :
    ([[(2 : ℚ)]].length = 1 * 1) ∧ ([(1 : ℚ)].length = 1 * 1)
    ∧ ([[(3 : ℚ)]].length = 1 * 1) ∧ ([(1 : ℚ)].length = 1 * 1)
    ∧ ((DeePC_C [[2]] [[3]] [[5]] [1] [1] [1]
          = vsub (mulVec [[2]] [1]) [1] ++ vsub (mulVec [[3]] [1]) [1] ++ mulVec [[5]] [1]
        ∧ (vsub (mulVec [[2]] [1]) [1]).length = 1 * 1
        ∧ (vsub (mulVec [[3]] [1]) [1]).length = 1 * 1
        ∧ (DeePC_lbc 1 1 1 [-1]).take (1 * 1 + 1 * 1) = List.replicate (1 * 1 + 1 * 1) 0
        ∧ (DeePC_ubc 1 1 1 [7]).take (1 * 1 + 1 * 1) = List.replicate (1 * 1 + 1 * 1) 0
        ∧ (DeePC_lbc 1 1 1 [-1]).drop (1 * 1 + 1 * 1) = [-1]
        ∧ (DeePC_ubc 1 1 1 [7]).drop (1 * 1 + 1 * 1) = [7])
      ∧ (RDeePC_C [[2]] [[5]] [1] [1] = vsub (mulVec [[2]] [1]) [1] ++ mulVec [[5]] [1]
        ∧ (RDeePC_lbc 1 1 [-1]).take (1 * 1) = List.replicate (1 * 1) 0
        ∧ (RDeePC_ubc 1 1 [7]).take (1 * 1) = List.replicate (1 * 1) 0
        ∧ (RDeePC_lbc 1 1 [-1]).drop (1 * 1) = [-1]
        ∧ (RDeePC_ubc 1 1 [7]).drop (1 * 1) = [7])) :=
  ⟨by decide, by decide, by decide, by decide,
    C3_equality_block [[2]] [[3]] [[5]] [1] [1] [1] [-1] [7] 1 1 1
      (by decide) (by decide) (by decide) (by decide)⟩

/-- C10: the lower- and upper-bound stacks have equal length, and that length
equals the number of equality rows of the chosen mode
(`u_dim·Tini + y_dim·Tini` in standard mode, `u_dim·Tini` in robust mode) plus
the number of inequality rows of `Hc`, which is also the length of the stacked
constraint vector.  The inequality-bound lengths agree with `Hc` whenever the
user-supplied bounds are consistent with the constrained index sets. -/
theorem C10_bound_lengths (Up Yp Hc : List (List ℚ)) (g uini yini lbci ubci : List ℚ)
    (udim ydim Tini : ℕ)
    (hUp : Up.length = udim * Tini) (huini : uini.length = udim * Tini)
    (hYp : Yp.length = ydim * Tini) (hyini : yini.length = ydim * Tini)
    (hlb : lbci.length = Hc.length) (hub : ubci.length = Hc.length) :
    ((DeePC_lbc udim ydim Tini lbci).length = (DeePC_ubc udim ydim Tini ubci).length
      ∧ (DeePC_lbc udim ydim Tini lbci).length = (DeePC_C Up Yp Hc g uini yini).length
      ∧ (DeePC_lbc udim ydim Tini lbci).length = udim * Tini + ydim * Tini + Hc.length)
    ∧ ((RDeePC_lbc udim Tini lbci).length = (RDeePC_ubc udim Tini ubci).length
      ∧ (RDeePC_lbc udim Tini lbci).length = (RDeePC_C Up Hc g uini).length
      ∧ (RDeePC_lbc udim Tini lbci).length = udim * Tini + Hc.length) := by
  refine ⟨⟨?_, ?_, ?_⟩, ?_, ?_, ?_⟩ <;>
    simp [DeePC_lbc, DeePC_ubc, DeePC_C, RDeePC_lbc, RDeePC_ubc, RDeePC_C,
      vsub, mulVec, List.length_zipWith, hUp, huini, hYp, hyini, hlb, hub,
      Nat.add_assoc]

/-- C10 witness: the same concrete instance as the C3 witness satisfies the
hypotheses and the theorem applies. -/
theorem C10_bound_lengths_witness :
    ([[(2 : ℚ)]].length = 1 * 1) ∧ ([(1 : ℚ)].length = 1 * 1)
    ∧ ([[(3 : ℚ)]].length = 1 * 1) ∧ ([(1 : ℚ)].length = 1 * 1)
    ∧ ([(-1 : ℚ)].length = [[(5 : ℚ)]].length) ∧ ([(7 : ℚ)].length = [[(5 : ℚ)]].length)
    ∧ (((DeePC_lbc 1 1 1 [-1]).length = (DeePC_ubc 1 1 1 [7]).length
        ∧ (DeePC_lbc 1 1 1 [-1]).length = (DeePC_C [[2]] [[3]] [[5]] [1] [1] [1]).length
        ∧ (DeePC_lbc 1 1 1 [-1]).length = 1 * 1 + 1 * 1 + [[(5 : ℚ)]].length)
      ∧ ((RDeePC_lbc 1 1 [-1]).length = (RDeePC_ubc 1 1 [7]).length
        ∧ (RDeePC_lbc 1 1 [-1]).length = (RDeePC_C [[2]] [[5]] [1] [1]).length
        ∧ (RDeePC_lbc 1 1 [-1]).length = 1 * 1 + [[(5 : ℚ)]].length)) :=
  ⟨by decide, by decide, by decide, by decide, by decide, by decide,
    C10_bound_lengths [[2]] [[3]] [[5]] [1] [1] [1] [-1] [7] 1 1 1
      (by decide) (by decide) (by decide) (by decide) (by decide) (by decide)⟩

/-- Helper: on a list of recognized entries (`u`/`y` keys only), the loop of
`_init_ineq_cons` succeeds and produces exactly the per-entry blocks described
by `entryBlock`. -/
lemma ineq_blocks_recognized (Uf Yf : List (List ℚ)) (udim ydim Np : ℕ)
    (bd : IneqBounds) (entries : List (String × List ℕ)) :
    (∀ e ∈ entries, e.1 = "u" ∨ e.1 = "y") →
    ineq_blocks Uf Yf udim ydim Np bd entries =
      .ok (entries.map (fun e => (entryBlock Uf Yf udim ydim Np bd e).1),
           entries.map (fun e => (entryBlock Uf Yf udim ydim Np bd e).2.1),
           entries.map (fun e => (entryBlock Uf Yf udim ydim Np bd e).2.2)) := by
  induction entries with
  | nil => intro _; rfl
  | cons e rest ih =>
      intro h
      obtain ⟨k, idx⟩ := e
      have hk := h (k, idx) (List.mem_cons_self ..)
      have hrest := ih (fun x hx => h x (List.mem_cons_of_mem _ hx))
      rcases hk with hk | hk <;> simp at hk <;> subst hk <;>
        simp [ineq_blocks, entryBlock, hrest, List.map_flatMap, Function.comp_def] <;> rfl

/-- C5: for a nonempty constraint specification whose keys are all recognized,
the built `Hc` stacks, entry by entry, row `v + i·dim` of the base matrix
(`Uf`/`u_dim` for key `u`, `Yf`/`y_dim` for key `y`) for each horizon step
`i < Np` and each requested component `v`, with the per-component bounds tiled
`Np` times in step order; and a single constrained component contributes
exactly `Np` rows. -/
theorem C5_constraint_tiling (Uf Yf : List (List ℚ)) (udim ydim Np : ℕ)
    (bd : IneqBounds) (entries : List (String × List ℕ))
    (hrec : ∀ e ∈ entries, e.1 = "u" ∨ e.1 = "y") (hne : entries ≠ []) :
    init_ineq_cons Uf Yf udim ydim Np (some entries) bd =
      .ok ((entries.map (fun e => (entryBlock Uf Yf udim ydim Np bd e).1)).flatten,
           (entries.map (fun e => (entryBlock Uf Yf udim ydim Np bd e).2.1)).flatten,
           (entries.map (fun e => (entryBlock Uf Yf udim ydim Np bd e).2.2)).flatten)
    ∧ ∀ v : ℕ, ((entryBlock Uf Yf udim ydim Np bd ("u", [v])).1).length = Np := by
  constructor
  · rw [init_ineq_cons, ineq_blocks_recognized Uf Yf udim ydim Np bd entries hrec]
    cases entries with
    | nil => exact absurd rfl hne
    | cons e rest => rfl
  · intro v
    simp [entryBlock, List.length_flatMap, Function.comp_def]

/-- C5 witness: one entry constraining component `0` of `u` over `Np = 2`
steps with bounds `[-1, 1]`; the hypotheses hold and the theorem applies. -/
theorem C5_constraint_tiling_witness :
    (∀ e ∈ [(("u" : String), [(0 : ℕ)])], e.1 = "u" ∨ e.1 = "y")
    ∧ ([(("u" : String), [(0 : ℕ)])] ≠ [])
    ∧ (init_ineq_cons [[1, 2], [3, 4]] [[9, 9]] 1 1 2 (some [("u", [0])])
          ⟨[-1], [1], [], []⟩ =
        .ok (([(("u" : String), [(0 : ℕ)])].map
                (fun e => (entryBlock [[1, 2], [3, 4]] [[9, 9]] 1 1 2 ⟨[-1], [1], [], []⟩ e).1)).flatten,
             ([(("u" : String), [(0 : ℕ)])].map
                (fun e => (entryBlock [[1, 2], [3, 4]] [[9, 9]] 1 1 2 ⟨[-1], [1], [], []⟩ e).2.1)).flatten,
             ([(("u" : String), [(0 : ℕ)])].map
                (fun e => (entryBlock [[1, 2], [3, 4]] [[9, 9]] 1 1 2 ⟨[-1], [1], [], []⟩ e).2.2)).flatten)
      ∧ ∀ v : ℕ,
          ((entryBlock [[1, 2], [3, 4]] [[9, 9]] 1 1 2 ⟨[-1], [1], [], []⟩ ("u", [v])).1).length = 2) :=
  ⟨by decide, by decide,
    C5_constraint_tiling [[1, 2], [3, 4]] [[9, 9]] 1 1 2 ⟨[-1], [1], [], []⟩
      [("u", [0])] (by decide) (by decide)⟩

end DeePC
